import Mathlib

/-!
Shallow embedding of the LangChain/Cohere SQL-agent scripts
(`l1.py` and `src/l1.py` of the repository).

Python effects are made explicit:
* A raised Python exception is modelled by `Except PyError`.  `PyError.exc`
  stands for an instance of an `Exception` subclass (what a bare
  `except Exception` clause catches, carrying `str(e)`); `PyError.interrupt`
  stands for a `BaseException` that is NOT an `Exception` subclass
  (`KeyboardInterrupt`, `SystemExit` raised during a call), which such a
  clause does not catch.
* The external database handle (`langchain` `SQLDatabase`) is a record of the
  three capabilities the scripts use: `get_usable_table_names()`,
  `_inspector.get_columns(table)` and `run(query)`.  `run` is state passing
  over an abstract database state `σ` so that mutation between calls is
  representable.
* `langgraph.get_runtime(RuntimeContext)` is modelled by an
  `Option (RuntimeContext σ)` argument: `some ctx` when a runtime context is
  bound at call time, `none` when the tool is invoked outside a run, in which
  case `get_runtime` raises.
-/

set_option autoImplicit false

namespace LangChainSql

/-- A raised Python exception: `exc msg` is an `Exception` subclass with
`str(e) = msg`; `interrupt` is a `BaseException` outside the `Exception`
hierarchy (`KeyboardInterrupt`, `SystemExit`), invisible to
`except Exception`. -/
inductive PyError where
  | exc (msg : String)
  | interrupt
deriving DecidableEq

instance {ε α : Type} [DecidableEq ε] [DecidableEq α] : DecidableEq (Except ε α) :=
  fun x y => by
    cases x with
    | error e₁ =>
      cases y with
      | error e₂ =>
        exact decidable_of_iff (e₁ = e₂)
          ⟨fun h => by rw [h], fun h => by injection h⟩
      | ok a₂ => exact isFalse fun h => by injection h
    | ok a₁ =>
      cases y with
      | error e₂ => exact isFalse fun h => by injection h
      | ok a₂ =>
        exact decidable_of_iff (a₁ = a₂)
          ⟨fun h => by rw [h], fun h => by injection h⟩

/-- One column record as returned by `_inspector.get_columns`; the scripts
only read its `name` entry. -/
structure Column where
  name : String
deriving DecidableEq

/-- The database handle: the three capabilities of `SQLDatabase` the scripts
use.  Metadata introspection (`usableTables`, `getColumns`) is catalog access;
`run` executes SQL against the abstract database state `σ` and may raise. -/
structure DB (σ : Type) where
  usableTables : List String
  getColumns : String → Except PyError (List Column)
  run : σ → String → Except PyError String × σ

/-- `RuntimeContext` dataclass: the single-field dependency bundle holding the
database handle. -/
structure RuntimeContext (σ : Type) where
  db : DB σ

/-- Message of the exception `langgraph.get_runtime` raises when no runtime
context is bound at call time. -/
def GET_RUNTIME_ERR : String := "get_runtime called outside of a runtime context"

/-- `get_runtime(RuntimeContext)`: returns the bound context or raises. -/
def get_runtime {σ : Type} (ctx : Option (RuntimeContext σ)) :
    Except PyError (RuntimeContext σ) :=
  match ctx with
  | some c => Except.ok c
  | none => Except.error (PyError.exc GET_RUNTIME_ERR)

/-- The `try`/`except Exception` block of `execute_sql`:
`try: return db.run(query) except Exception as e: return f"Error: {e}"`.
An `Exception` from `run` is converted to in-band text; an interrupt
propagates. -/
def tryRunSql {σ : Type} (db : DB σ) (st : σ) (query : String) :
    Except PyError String × σ :=
  match db.run st query with
  | (Except.ok res, st') => (Except.ok res, st')
  | (Except.error (PyError.exc msg), st') => (Except.ok ("Error: " ++ msg), st')
  | (Except.error PyError.interrupt, st') => (Except.error PyError.interrupt, st')

/-- The `execute_sql` tool (identical in both script variants):
resolve the runtime context (outside the `try`, so its failure propagates),
take the database handle from it, then run the query under
`except Exception`. -/
def execute_sql {σ : Type} (ctx : Option (RuntimeContext σ)) (st : σ)
    (query : String) : Except PyError String × σ :=
  match get_runtime ctx with
  | Except.error e => (Except.error e, st)
  | Except.ok runtime => tryRunSql runtime.db st query

/-- One rendered schema line: `f"- \x7btable\x7d: \x7bcols\x7d"` with the
column names joined by `", "`. -/
def schemaLine (table : String) (cols : List Column) : String :=
  "- " ++ table ++ ": " ++ String.intercalate ", " (cols.map Column.name)

/-- The table loop of `get_compact_schema`: for each table, introspect its
columns and render a line.  There is no `try`/`except` in the source, so a
raise from `get_columns` propagates out of the whole loop. -/
def schemaLines {σ : Type} (db : DB σ) : List String → Except PyError (List String)
  | [] => Except.ok []
  | t :: ts =>
    match db.getColumns t with
    | Except.error e => Except.error e
    | Except.ok cols =>
      match schemaLines db ts with
      | Except.error e => Except.error e
      | Except.ok rest => Except.ok (schemaLine t cols :: rest)

/-- `get_compact_schema(db)`: one line per usable table, joined by newlines,
built from catalog metadata only. -/
def get_compact_schema {σ : Type} (db : DB σ) : Except PyError String :=
  (schemaLines db db.usableTables).map (String.intercalate "\n")

/-- Python `str.strip()` on the character list: drop whitespace from both
ends. -/
def pyStripList (l : List Char) : List Char :=
  ((l.dropWhile Char.isWhitespace).reverse.dropWhile Char.isWhitespace).reverse

/-- Python `str.strip()`. -/
def pyStrip (s : String) : String := String.mk (pyStripList s.data)

/-- The default question used by both script variants. -/
def DEFAULT_QUESTION : String := "List top 10 artists with highest tracks"

/-- `get_user_question` applied to the line read from standard input:
`return user_input.strip() or default_question` — the stripped line, or the
default when the stripped line is empty (falsy). -/
def get_user_question (user_input : String) : String :=
  let s := pyStrip user_input
  if s = "" then DEFAULT_QUESTION else s

/-- What reading one line from standard input produced: a line, or a
`KeyboardInterrupt`/`EOFError` (the pair the refactored prompt catches). -/
inductive StdinResult where
  | line (s : String)
  | cancelled
deriving DecidableEq

/-- `get_user_question` of `src/l1.py`: on `KeyboardInterrupt`/`EOFError`
prints and calls `exit(0)` (modelled as `Except.error 0`, the exit code). -/
def read_user_question (stdin : StdinResult) : Except Nat String :=
  match stdin with
  | StdinResult.line s => Except.ok (get_user_question s)
  | StdinResult.cancelled => Except.error 0

/-- `handle_error(e, context)` output line: `f"\nError \x7bcontext\x7d: \x7be\x7d"`
(the optional `e.response.text` line is absent for the exceptions modelled
here). -/
def handle_error_msg (msg ctx : String) : String :=
  "\nError " ++ ctx ++ ": " ++ msg

/-- The streaming loop body of `main`: for each snapshot yielded by
`agent.stream`, `step["messages"][-1].pretty_print()` runs under
`try`/`except Exception`; each list entry is that call's outcome.  On an
`Exception` the loop reports via `handle_error` and `break`s; an interrupt
propagates.  Returns the printed lines, or the propagated interrupt. -/
def process_stream : List (Except PyError String) → Except PyError (List String)
  | [] => Except.ok []
  | Except.ok out :: rest => (process_stream rest).map (fun outs => out :: outs)
  | Except.error (PyError.exc msg) :: _ =>
      Except.ok [handle_error_msg msg "processing stream"]
  | Except.error PyError.interrupt :: _ => Except.error PyError.interrupt

/-- The agent object: only its system prompt is observable in the model. -/
structure Agent where
  system_prompt : String
deriving DecidableEq

/-- `create_sql_agent(db)`: builds the system prompt from
`get_compact_schema(db)` (whose raise propagates) and constructs the agent. -/
def create_sql_agent {σ : Type} (db : DB σ) : Except PyError Agent :=
  match get_compact_schema db with
  | Except.error e => Except.error e
  | Except.ok schema =>
      Except.ok ⟨"SQL analyst for music database (read-only).\nSchema:\n"
        ++ schema
        ++ "\nRules:\n- Use execute_sql with explicit columns (avoid SELECT *)\n- Limit 5 rows unless specified\n- Fix and retry on errors"⟩

/-- The process environment of one run of `src/l1.py`: whether the database
file exists at the resolved path, the handle `from_uri` would produce, the
standard-input outcome, and the outcomes of rendering each snapshot the agent
stream yields. -/
structure Env (σ : Type) where
  dbFileExists : Bool
  dbPath : String
  db : DB σ
  stdin : StdinResult
  steps : List (Except PyError String)

/-- `create_database()` of `src/l1.py`: raises `FileNotFoundError` when the
database file is missing, otherwise returns the handle. -/
def create_database {σ : Type} (env : Env σ) : Except PyError (DB σ) :=
  if env.dbFileExists then Except.ok env.db
  else Except.error (PyError.exc ("Database not found: " ++ env.dbPath))

/-- How `main()` of `src/l1.py` ends. -/
inductive MainResult where
  | finished
  | exited (code : Nat)
  | raised (e : PyError)
deriving DecidableEq

/-- `main()` of `src/l1.py`: construct the database and agent, read the
question, then drive the stream loop.  Returns how it ended together with the
lines printed along the way. -/
def main {σ : Type} (env : Env σ) : MainResult × List String :=
  match create_database env with
  | Except.error e => (MainResult.raised e, [])
  | Except.ok db =>
    match create_sql_agent db with
    | Except.error e => (MainResult.raised e, [])
    | Except.ok _agent =>
      match read_user_question env.stdin with
      | Except.error code => (MainResult.exited code, ["\n\nExiting..."])
      | Except.ok question =>
        match process_stream env.steps with
        | Except.ok outs =>
            (MainResult.finished, ("\nProcessing: " ++ question ++ "\n") :: outs)
        | Except.error e =>
            (MainResult.raised e, ["\nProcessing: " ++ question ++ "\n"])

/-- The `if __name__ == "__main__"` ladder of `src/l1.py`: `KeyboardInterrupt`
prints and exits 0; any other `Exception` is reported by `handle_error`, after
which the interpreter falls off the end of the script and exits 0.  Returns
the process exit code and the printed lines. -/
def entry {σ : Type} (env : Env σ) : Nat × List String :=
  match main env with
  | (MainResult.finished, outs) => (0, outs)
  | (MainResult.exited code, outs) => (code, outs)
  | (MainResult.raised PyError.interrupt, outs) =>
      (0, outs ++ ["\n\nInterrupted by user. Exiting..."])
  | (MainResult.raised (PyError.exc msg), outs) =>
      (0, outs ++ [handle_error_msg msg "in main execution"])

/-- With a bound context, `execute_sql` is the `try` block on the context's
database handle (reduction lemma). -/
theorem execute_sql_some {σ : Type} (ctx : RuntimeContext σ) (st : σ) (q : String) :
    execute_sql (some ctx) st q = tryRunSql ctx.db st q := rfl

/-- The state returned by the `try` block is exactly the state `run` left
behind, whatever the outcome. -/
theorem tryRunSql_state {σ : Type} (db : DB σ) (st : σ) (q : String) :
    (tryRunSql db st q).2 = (db.run st q).2 := by
  unfold tryRunSql
  rcases h : db.run st q with ⟨r, st'⟩
  rcases r with e | res
  · cases e <;> rfl
  · rfl

/-- A concrete handle whose `run` always raises an `Exception`. -/
def dbErrU : DB Unit :=
  ⟨[], fun _ => Except.ok [],
   fun st _ => (Except.error (PyError.exc "no such table: Foo"), st)⟩

/-- A concrete handle whose `run` always succeeds and leaves the state
unchanged. -/
def dbOkU : DB Unit :=
  ⟨[], fun _ => Except.ok [], fun st q => (Except.ok ("rows for: " ++ q), st)⟩

/-- A concrete handle whose `run` raises a `KeyboardInterrupt`. -/
def dbIntrU : DB Unit :=
  ⟨[], fun _ => Except.ok [], fun st _ => (Except.error PyError.interrupt, st)⟩

/-- C1: with a context bound, `execute_sql` never lets an `Exception` escape:
its result is never a raised `PyError.exc`, and whenever `run` raises an
`Exception` with message `msg` the tool returns the in-band string
`"Error: " ++ msg` instead. -/
theorem execute_sql_contains_errors (σ : Type) (ctx : RuntimeContext σ)
    (st : σ) (q : String) :
    (∀ msg : String, (execute_sql (some ctx) st q).1 ≠ Except.error (PyError.exc msg))
    ∧ (∀ (msg : String) (st' : σ),
        ctx.db.run st q = (Except.error (PyError.exc msg), st') →
        execute_sql (some ctx) st q = (Except.ok ("Error: " ++ msg), st')) := by
  constructor
  · intro msg
    rw [execute_sql_some]
    unfold tryRunSql
    rcases h : ctx.db.run st q with ⟨r, st'⟩
    rcases r with e | res
    · cases e <;> simp
    · simp
  · intro msg st' h
    rw [execute_sql_some]
    unfold tryRunSql
    rw [h]

/-- Witness for C1: a malformed-reference query against a concrete handle
whose execution raises is answered with the in-band error string. -/
theorem execute_sql_contains_errors_witness :
    execute_sql (some ⟨dbErrU⟩) () "SELECT x FROM Foo"
      = (Except.ok "Error: no such table: Foo", ()) :=
  (execute_sql_contains_errors Unit ⟨dbErrU⟩ () "SELECT x FROM Foo").2
    "no such table: Foo" () rfl

/-- C4: the handle `execute_sql` queries comes from the runtime context bound
at call time: with no context bound the tool raises (the `get_runtime` failure
is outside the `try` and propagates), and with a context bound the tool is
exactly the `try` block applied to that context's handle. -/
theorem execute_sql_uses_call_time_context (σ : Type) (st : σ) (q : String) :
    execute_sql (none : Option (RuntimeContext σ)) st q
      = (Except.error (PyError.exc GET_RUNTIME_ERR), st)
    ∧ ∀ ctx : RuntimeContext σ, execute_sql (some ctx) st q = tryRunSql ctx.db st q :=
  ⟨rfl, fun _ => rfl⟩

/-- C8: on a successful execution the tool returns the database layer's text
verbatim — no truncation, filtering or clamping at the tool layer. -/
theorem execute_sql_passes_rows_through (σ : Type) (ctx : RuntimeContext σ)
    (st : σ) (q s : String) (st' : σ)
    (h : ctx.db.run st q = (Except.ok s, st')) :
    execute_sql (some ctx) st q = (Except.ok s, st') := by
  rw [execute_sql_some]
  unfold tryRunSql
  rw [h]

/-- Witness for C8: a concrete successful query's rendering is returned
unchanged. -/
theorem execute_sql_passes_rows_through_witness :
    execute_sql (some ⟨dbOkU⟩) () "SELECT 1"
      = (Except.ok "rows for: SELECT 1", ()) :=
  execute_sql_passes_rows_through Unit ⟨dbOkU⟩ () "SELECT 1"
    "rows for: SELECT 1" () rfl

/-- C9: if executing `q` leaves the database state unchanged (a read-only
query), a second invocation of the tool with the same query returns the same
text as the first. -/
theorem execute_sql_repeat_deterministic (σ : Type) (ctx : RuntimeContext σ)
    (st : σ) (q : String) (h : (ctx.db.run st q).2 = st) :
    (execute_sql (some ctx) ((execute_sql (some ctx) st q).2) q).1
      = (execute_sql (some ctx) st q).1 := by
  have h2 : (execute_sql (some ctx) st q).2 = st := by
    rw [execute_sql_some, tryRunSql_state, h]
  rw [h2]

/-- Witness for C9: two invocations of a concrete read-only query coincide. -/
theorem execute_sql_repeat_deterministic_witness :
    (execute_sql (some ⟨dbOkU⟩) ((execute_sql (some ⟨dbOkU⟩) () "SELECT 1").2)
        "SELECT 1").1
      = (execute_sql (some ⟨dbOkU⟩) () "SELECT 1").1 :=
  execute_sql_repeat_deterministic Unit ⟨dbOkU⟩ () "SELECT 1" rfl

/-- C10: the `except Exception` clause does not catch interrupts: when `run`
raises a `BaseException` outside the `Exception` hierarchy, `execute_sql`
propagates it past the tool boundary. -/
theorem execute_sql_propagates_interrupts (σ : Type) (ctx : RuntimeContext σ)
    (st : σ) (q : String) (st' : σ)
    (h : ctx.db.run st q = (Except.error PyError.interrupt, st')) :
    execute_sql (some ctx) st q = (Except.error PyError.interrupt, st') := by
  rw [execute_sql_some]
  unfold tryRunSql
  rw [h]

/-- Witness for C10: a concrete interrupt during the database round trip
escapes the tool. -/
theorem execute_sql_propagates_interrupts_witness :
    execute_sql (some ⟨dbIntrU⟩) () "SELECT 1"
      = (Except.error PyError.interrupt, ()) :=
  execute_sql_propagates_interrupts Unit ⟨dbIntrU⟩ () "SELECT 1" () rfl

/-- When every table's introspection succeeds, the table loop renders one
line per table in catalog order. -/
theorem schemaLines_ok {σ : Type} (db : DB σ) (colsOf : String → List Column)
    (l : List String) (h : ∀ t ∈ l, db.getColumns t = Except.ok (colsOf t)) :
    schemaLines db l = Except.ok (l.map fun t => schemaLine t (colsOf t)) := by
  induction l with
  | nil => rfl
  | cons t ts ih =>
    unfold schemaLines
    rw [h t (List.mem_cons_self t ts),
      ih fun x hx => h x (List.mem_cons_of_mem t hx)]
    rfl

/-- The table loop only reads the introspection capability: the `run`
capability of the handle is irrelevant to it. -/
theorem schemaLines_run_irrelevant {σ : Type} (tbls : List String)
    (cols : String → Except PyError (List Column))
    (r r' : σ → String → Except PyError String × σ) (l : List String) :
    schemaLines (⟨tbls, cols, r'⟩ : DB σ) l = schemaLines (⟨tbls, cols, r⟩ : DB σ) l := by
  induction l with
  | nil => rfl
  | cons t ts ih =>
    unfold schemaLines
    rw [ih]

/-- If introspection raises for a table of the list, the table loop raises
(the source has no per-table `try`/`except`). -/
theorem schemaLines_error {σ : Type} (db : DB σ) (t : String) (e : PyError)
    (he : db.getColumns t = Except.error e) (l : List String) (hmem : t ∈ l) :
    ∃ e' : PyError, schemaLines db l = Except.error e' := by
  induction l with
  | nil => exact absurd hmem (List.not_mem_nil t)
  | cons x xs ih =>
    unfold schemaLines
    rcases hc : db.getColumns x with ex | cols
    · exact ⟨ex, rfl⟩
    · have hx : t ∈ xs := by
        rcases List.mem_cons.mp hmem with h1 | h2
        · subst h1
          rw [he] at hc
          simp at hc
        · exact h2
      obtain ⟨e', he'⟩ := ih hx
      rw [he']
      exact ⟨e', rfl⟩

/-- A concrete handle with two tables, both introspectable. -/
def dbA : DB Unit :=
  ⟨["Artist", "Track"],
   fun t =>
     if t = "Artist" then Except.ok [⟨"ArtistId"⟩, ⟨"Name"⟩]
     else if t = "Track" then Except.ok [⟨"TrackId"⟩, ⟨"ArtistId"⟩]
     else Except.error (PyError.exc "unknown table"),
   fun st _ => (Except.ok "", st)⟩

/-- The catalog column lists of `dbA`. -/
def colsOfA (t : String) : List Column :=
  if t = "Artist" then [⟨"ArtistId"⟩, ⟨"Name"⟩]
  else if t = "Track" then [⟨"TrackId"⟩, ⟨"ArtistId"⟩]
  else []

/-- C2: when introspection succeeds on every usable table,
`get_compact_schema` returns exactly one line per usable table, formatted
`- <table>: <col1>, <col2>, ...` with column names in catalog order; and the
summary is computed from catalog metadata only — replacing the handle's
query-execution capability `run` by any other leaves the output unchanged
(zero data-reading queries). -/
theorem get_compact_schema_renders_catalog (σ : Type) (db : DB σ)
    (colsOf : String → List Column)
    (h : ∀ t ∈ db.usableTables, db.getColumns t = Except.ok (colsOf t)) :
    get_compact_schema db
      = Except.ok (String.intercalate "\n"
          (db.usableTables.map fun t => schemaLine t (colsOf t)))
    ∧ ∀ run' : σ → String → Except PyError String × σ,
        get_compact_schema (⟨db.usableTables, db.getColumns, run'⟩ : DB σ)
          = get_compact_schema db := by
  constructor
  · unfold get_compact_schema
    rw [schemaLines_ok db colsOf db.usableTables h]
    rfl
  · intro run'
    unfold get_compact_schema
    obtain ⟨tbls, cols, r⟩ := db
    rw [schemaLines_run_irrelevant tbls cols r run' tbls]

/-- Witness for C2: the two-table handle renders to the expected two lines. -/
theorem get_compact_schema_renders_catalog_witness :
    get_compact_schema dbA
      = Except.ok "- Artist: ArtistId, Name\n- Track: TrackId, ArtistId" :=
  ((get_compact_schema_renders_catalog Unit dbA colsOfA (by decide)).1).trans
    (by decide)

/-- A concrete handle whose middle table fails introspection. -/
def dbB : DB Unit :=
  ⟨["Album", "Bad", "Customer"],
   fun t =>
     if t = "Bad" then Except.error (PyError.exc "introspection failed")
     else Except.ok [⟨"Id"⟩],
   fun st _ => (Except.ok "", st)⟩

/-- Counterexample to C3: on a handle where table `Bad` fails introspection
while `Album` and `Customer` succeed, `get_compact_schema` raises instead of
returning the remaining tables' summary `- Album: Id\n- Customer: Id`. -/
theorem get_compact_schema_omits_counterexample :
    get_compact_schema dbB = Except.error (PyError.exc "introspection failed")
    ∧ get_compact_schema dbB ≠ Except.ok "- Album: Id\n- Customer: Id" := by
  decide

/-- C3 amended: if column introspection raises for some usable table, the
whole summary aborts — `get_compact_schema` propagates an exception and
returns no partial summary (the failing table is not merely omitted). -/
theorem get_compact_schema_aborts_on_failure (σ : Type) (db : DB σ)
    (t : String) (e : PyError) (hmem : t ∈ db.usableTables)
    (he : db.getColumns t = Except.error e) :
    ∃ e' : PyError, get_compact_schema db = Except.error e' := by
  obtain ⟨e', h⟩ := schemaLines_error db t e he db.usableTables hmem
  refine ⟨e', ?_⟩
  unfold get_compact_schema
  rw [h]
  rfl

/-- Witness for the amended C3: the concrete handle with one failing table
makes the whole summary raise. -/
theorem get_compact_schema_aborts_on_failure_witness :
    ∃ e' : PyError, get_compact_schema dbB = Except.error e' :=
  get_compact_schema_aborts_on_failure Unit dbB "Bad"
    (PyError.exc "introspection failed") (by decide) (by decide)

/-- `strip()` of a character list is empty exactly when every character is
whitespace. -/
theorem pyStripList_eq_nil_iff (l : List Char) :
    pyStripList l = [] ↔ ∀ c ∈ l, c.isWhitespace := by
  unfold pyStripList
  rw [List.reverse_eq_nil_iff, List.dropWhile_eq_nil_iff]
  constructor
  · intro h c hc
    have hsplit :
        c ∈ List.takeWhile Char.isWhitespace l ++ List.dropWhile Char.isWhitespace l := by
      rw [List.takeWhile_append_dropWhile Char.isWhitespace l]
      exact hc
    rcases List.mem_append.mp hsplit with h1 | h2
    · exact List.mem_takeWhile_imp h1
    · exact h c (List.mem_reverse.mpr h2)
  · intro h x hx
    rw [List.dropWhile_eq_nil_iff.mpr h] at hx
    simp at hx

/-- `strip()` of a string is the empty string exactly when every character of
the string is whitespace. -/
theorem pyStrip_eq_empty_iff (s : String) :
    pyStrip s = "" ↔ ∀ c ∈ s.data, c.isWhitespace := by
  rw [String.ext_iff]
  exact pyStripList_eq_nil_iff s.data

/-- C7: an input line that is empty or all whitespace makes
`get_user_question` return the documented default question; any other line is
returned with surrounding whitespace stripped. -/
theorem get_user_question_strip_or_default (user_input : String) :
    ((∀ c ∈ user_input.data, c.isWhitespace) →
      get_user_question user_input = DEFAULT_QUESTION)
    ∧ ((¬ ∀ c ∈ user_input.data, c.isWhitespace) →
      get_user_question user_input = pyStrip user_input) := by
  constructor
  · intro h
    show (if pyStrip user_input = "" then DEFAULT_QUESTION else pyStrip user_input)
      = DEFAULT_QUESTION
    rw [if_pos ((pyStrip_eq_empty_iff user_input).mpr h)]
  · intro h
    show (if pyStrip user_input = "" then DEFAULT_QUESTION else pyStrip user_input)
      = pyStrip user_input
    rw [if_neg fun he => h ((pyStrip_eq_empty_iff user_input).mp he)]

/-- Witness for C7: a whitespace-only line falls back to the default
question, and a padded line is stripped. -/
theorem get_user_question_strip_or_default_witness :
    get_user_question "  \t " = DEFAULT_QUESTION
    ∧ get_user_question "  top artists  " = "top artists" := by
  constructor
  · exact (get_user_question_strip_or_default "  \t ").1 (by decide)
  · exact ((get_user_question_strip_or_default "  top artists  ").2
      (by decide)).trans (by decide)

/-- A concrete environment whose database file is missing. -/
def envNoDbFile : Env Unit :=
  ⟨false, "db/Chinook.db", dbOkU, StdinResult.line "hi", []⟩

/-- Counterexample to C5: with the database file missing, the run fails at
construction and the failure is reported, but the process exit code is 0,
not non-zero — the top-level `except Exception` handler reports the error and
the script then falls off its end, so the interpreter exits normally. -/
theorem startup_failure_exit_code_counterexample :
    entry envNoDbFile
      = (0, ["\nError in main execution: Database not found: db/Chinook.db"]) := by
  decide

/-- C5 amended: if construction fails at startup because the database file is
missing, the failure is fatal (`main` aborts before any agent work, raising
`FileNotFoundError`) and is reported to the user by the top-level handler,
but the process exits with code 0: the handler catches the exception and the
interpreter terminates normally. -/
theorem construction_failure_reported_exit_zero (σ : Type) (env : Env σ)
    (h : env.dbFileExists = false) :
    main env
      = (MainResult.raised (PyError.exc ("Database not found: " ++ env.dbPath)), [])
    ∧ entry env
      = (0, [handle_error_msg ("Database not found: " ++ env.dbPath)
          "in main execution"]) := by
  have hc : create_database env
      = Except.error (PyError.exc ("Database not found: " ++ env.dbPath)) := by
    unfold create_database
    rw [h]
    rfl
  have hm : main env
      = (MainResult.raised (PyError.exc ("Database not found: " ++ env.dbPath)), []) := by
    unfold main
    rw [hc]
  refine ⟨hm, ?_⟩
  unfold entry
  rw [hm]
  rfl

/-- Witness for the amended C5: the concrete missing-file environment aborts,
reports, and exits 0. -/
theorem construction_failure_reported_exit_zero_witness :
    main envNoDbFile
      = (MainResult.raised (PyError.exc "Database not found: db/Chinook.db"), [])
    ∧ entry envNoDbFile
      = (0, ["\nError in main execution: Database not found: db/Chinook.db"]) :=
  construction_failure_reported_exit_zero Unit envNoDbFile rfl

/-- A concrete environment whose stream yields a good snapshot, then one
whose rendering raises, then one more (never reached). -/
def envStreamErr : Env Unit :=
  ⟨true, "db/Chinook.db", dbA, StdinResult.line "q",
   [Except.ok "out1", Except.error (PyError.exc "bad shape"), Except.ok "unreached"]⟩

/-- C6: if rendering some snapshot of the stream raises an `Exception`, the
loop prints the snapshots before it, reports the failure context
(`handle_error` with context `processing stream`) and breaks: snapshots after
the failure are never rendered (no retry), the loop returns normally instead
of propagating, and a run whose only failure is such a render error finishes
`main` cleanly with process exit code 0 (no crash). -/
theorem stream_error_stops_loop_cleanly (pre : List String)
    (post : List (Except PyError String)) (msg : String) :
    process_stream (pre.map Except.ok ++ Except.error (PyError.exc msg) :: post)
      = Except.ok (pre ++ [handle_error_msg msg "processing stream"])
    ∧ ∀ env : Env Unit,
        env.steps = pre.map Except.ok ++ Except.error (PyError.exc msg) :: post →
        env.dbFileExists = true →
        (∃ a : Agent, create_sql_agent env.db = Except.ok a) →
        (∃ s : String, env.stdin = StdinResult.line s) →
        (main env).1 = MainResult.finished ∧ (entry env).1 = 0 := by
  have hp : process_stream (pre.map Except.ok ++ Except.error (PyError.exc msg) :: post)
      = Except.ok (pre ++ [handle_error_msg msg "processing stream"]) := by
    induction pre with
    | nil => rfl
    | cons x xs ih =>
      simp only [List.map_cons, List.cons_append, process_stream, List.append_eq, ih]
      rfl
  refine ⟨hp, ?_⟩
  rintro env hsteps hdb ⟨a, ha⟩ ⟨s, hs⟩
  have hc : create_database env = Except.ok env.db := by
    unfold create_database
    rw [hdb]
    rfl
  have hm : main env
      = (MainResult.finished,
        ("\nProcessing: " ++ get_user_question s ++ "\n")
          :: (pre ++ [handle_error_msg msg "processing stream"])) := by
    simp only [main, hc, ha, hs, hsteps, hp, read_user_question]
  constructor
  · rw [hm]
  · unfold entry
    rw [hm]

/-- Witness for C6: on a concrete run, the loop keeps the first snapshot's
output, reports the render failure, skips the last snapshot, and the process
exits 0. -/
theorem stream_error_stops_loop_cleanly_witness :
    process_stream
        [Except.ok "out1", Except.error (PyError.exc "bad shape"), Except.ok "unreached"]
      = Except.ok ["out1", "\nError processing stream: bad shape"]
    ∧ (entry envStreamErr).1 = 0 := by
  have h := stream_error_stops_loop_cleanly ["out1"] [Except.ok "unreached"] "bad shape"
  refine ⟨h.1.trans (by decide), ?_⟩
  exact (h.2 envStreamErr rfl rfl ⟨_, rfl⟩ ⟨"q", rfl⟩).2

end LangChainSql
